import Mathlib

/-!
# Aspia: `HostProcess` (host/win/host_process.cc) and `ScopedComPtr` (base/scoped_comptr.h)

A shallow embedding of the public methods of `HostProcess` and of the
`Release` / `Detach` / `Attach` methods of `ScopedComPtr`.

Every method is a function from the object before the call to the object after
the call together with the list of observable effects the call performed, in
program order.
-/

namespace aspia

/-! ## Data model of `HostProcess` -/

/-- The Qt type `quint32`: an unsigned 32-bit integer. -/
abbrev quint32 := Fin 4294967296

/-- Modelled from the spec: the enum `HostProcess::ProcessState`, declared in
host/win/host_process.h, which is not among the sources. The source only names
its member `NotRunning`; the other members are the states of section 3 of the
specification. -/
inductive ProcessState
  | NotRunning
  | Starting
  | Running
  | Finished
  | Killed
  | Failed
  deriving DecidableEq, Repr

/-- Modelled from the spec: the enum `HostProcess::Account`, declared in
host/win/host_process.h, which is not among the sources. The selector is one of
CurrentUser, PrivilegedSystem, ExplicitAccount; the last one carries a principal
name and a credential reference. -/
inductive Account
  | CurrentUser
  | PrivilegedSystem
  | ExplicitAccount (name : String) (credential : String)
  deriving DecidableEq, Repr

/-- The members of `HostProcessImpl` that host_process.cc reads and writes
through `impl_->`: `state_`, `session_id_`, `account_`, `program_` and
`arguments_` (`QString` is `String`, `QStringList` is `List String`). -/
structure HostProcessImpl where
  state_ : ProcessState
  session_id_ : quint32
  account_ : Account
  program_ : String
  arguments_ : List String
  deriving DecidableEq, Repr

/-- The class `HostProcess`: its only data member is `impl_`. -/
structure HostProcess where
  impl_ : HostProcessImpl
  deriving DecidableEq, Repr

/-- The two member functions of `HostProcessImpl` that host_process.cc calls.
Their bodies (host/win/host_process_impl.cc) are not among the sources, so the
methods of `HostProcess` take them as a parameter: each maps the implementation
object before the call to the implementation object after it and the list of
things it did, of an arbitrary type `ε`. -/
structure HostProcessImplOps (ε : Type) where
  startProcess : HostProcessImpl → HostProcessImpl × List ε
  killProcess : HostProcessImpl → HostProcessImpl × List ε

/-- What a method of `HostProcess` does besides updating `impl_`: it prints a
warning with `qWarning`, or it calls `impl_->startProcess()` or
`impl_->killProcess()`. A call records the implementation object the callee
received (`seen`) and what the callee did (`did`). -/
inductive Effect (ε : Type)
  | qWarning (msg : String)
  | startProcess (seen : HostProcessImpl) (did : List ε)
  | killProcess (seen : HostProcessImpl) (did : List ε)
  deriving DecidableEq, Repr

/-- Whether an effect is a call of `impl_->startProcess()`. -/
def Effect.isStartProcess {ε : Type} : Effect ε → Bool
  | Effect.startProcess _ _ => true
  | _ => false

/-- The result of a `void` method: the object after the call and the effects of
the call. -/
abbrev Outcome (ε : Type) := HostProcess × List (Effect ε)

/-- Sequential composition `f(); g();` of two method calls on the same object. -/
def andThen {ε : Type} (f g : HostProcess → Outcome ε) (self : HostProcess) : Outcome ε :=
  let r1 := f self
  let r2 := g r1.1
  (r2.1, r1.2 ++ r2.2)

/-! ## Methods of `HostProcess` (host_process.cc) -/

/-- `quint32 HostProcess::sessionId() const`. -/
def HostProcess.sessionId (self : HostProcess) : quint32 :=
  self.impl_.session_id_

/-- `HostProcess::Account HostProcess::account() const`. -/
def HostProcess.account (self : HostProcess) : Account :=
  self.impl_.account_

/-- `QString HostProcess::program() const`. -/
def HostProcess.program (self : HostProcess) : String :=
  self.impl_.program_

/-- `QStringList HostProcess::arguments() const`. -/
def HostProcess.arguments (self : HostProcess) : List String :=
  self.impl_.arguments_

/-- `HostProcess::ProcessState HostProcess::state() const`. -/
def HostProcess.state (self : HostProcess) : ProcessState :=
  self.impl_.state_

/-- `void HostProcess::setSessionId(quint32 session_id)`. -/
def HostProcess.setSessionId {ε : Type} (session_id : quint32) (self : HostProcess) :
    Outcome ε :=
  if self.impl_.state_ ≠ ProcessState.NotRunning then
    (self, [Effect.qWarning "HostProcess::setSessionId: Process is already running"])
  else
    ({ self with impl_ := { self.impl_ with session_id_ := session_id } }, [])

/-- `void HostProcess::setAccount(Account account)`. -/
def HostProcess.setAccount {ε : Type} (account : Account) (self : HostProcess) :
    Outcome ε :=
  if self.impl_.state_ ≠ ProcessState.NotRunning then
    (self, [Effect.qWarning "HostProcess::setAccount: Process is already running"])
  else
    ({ self with impl_ := { self.impl_ with account_ := account } }, [])

/-- `void HostProcess::setProgram(const QString& program)`. -/
def HostProcess.setProgram {ε : Type} (program : String) (self : HostProcess) :
    Outcome ε :=
  if self.impl_.state_ ≠ ProcessState.NotRunning then
    (self, [Effect.qWarning "HostProcess::setProgram: Process is already running"])
  else
    ({ self with impl_ := { self.impl_ with program_ := program } }, [])

/-- `void HostProcess::setArguments(const QStringList& arguments)`. -/
def HostProcess.setArguments {ε : Type} (arguments : List String) (self : HostProcess) :
    Outcome ε :=
  if self.impl_.state_ ≠ ProcessState.NotRunning then
    (self, [Effect.qWarning "HostProcess::setArguments: Process is already running"])
  else
    ({ self with impl_ := { self.impl_ with arguments_ := arguments } }, [])

/-- `void HostProcess::start()`: calls `impl_->startProcess()`. -/
def HostProcess.start {ε : Type} (ops : HostProcessImplOps ε) (self : HostProcess) :
    Outcome ε :=
  let r := ops.startProcess self.impl_
  ({ self with impl_ := r.1 }, [Effect.startProcess self.impl_ r.2])

/-- `void HostProcess::start(quint32 session_id, Account account,
const QString& program, const QStringList& arguments)`. -/
def HostProcess.start4 {ε : Type} (ops : HostProcessImplOps ε) (session_id : quint32)
    (account : Account) (program : String) (arguments : List String)
    (self : HostProcess) : Outcome ε :=
  if self.impl_.state_ ≠ ProcessState.NotRunning then
    (self, [Effect.qWarning "HostProcess::start: Process is already running"])
  else
    let s1 : HostProcess := { self with impl_ := { self.impl_ with session_id_ := session_id } }
    let s2 : HostProcess := { s1 with impl_ := { s1.impl_ with account_ := account } }
    let s3 : HostProcess := { s2 with impl_ := { s2.impl_ with program_ := program } }
    let s4 : HostProcess := { s3 with impl_ := { s3.impl_ with arguments_ := arguments } }
    HostProcess.start ops s4

/-- `void HostProcess::kill()`: calls `impl_->killProcess()`. -/
def HostProcess.kill {ε : Type} (ops : HostProcessImplOps ε) (self : HostProcess) :
    Outcome ε :=
  let r := ops.killProcess self.impl_
  ({ self with impl_ := r.1 }, [Effect.killProcess self.impl_ r.2])

/-! ## Sequences of configuration mutator calls -/

/-- One call of a configuration mutator, with its argument. -/
inductive Mutator
  | setSessionId (session_id : quint32)
  | setAccount (account : Account)
  | setProgram (program : String)
  | setArguments (arguments : List String)
  deriving DecidableEq, Repr

/-- Performs the call on a `HostProcess`. -/
def Mutator.call {ε : Type} : Mutator → HostProcess → Outcome ε
  | Mutator.setSessionId v => HostProcess.setSessionId v
  | Mutator.setAccount v => HostProcess.setAccount v
  | Mutator.setProgram v => HostProcess.setProgram v
  | Mutator.setArguments v => HostProcess.setArguments v

/-- Performs a finite sequence of method calls on the same object, first to
last. -/
def runAll {ε : Type} : List (HostProcess → Outcome ε) → HostProcess → Outcome ε
  | [], self => (self, [])
  | f :: fs, self => andThen f (runAll fs) self

/-- Performs a finite sequence of mutator calls, first to last. -/
def runCalls {ε : Type} (ms : List Mutator) (self : HostProcess) : Outcome ε :=
  runAll (ms.map Mutator.call) self

/-- The messages a call printed with `qWarning`, in order. -/
def warnings {ε : Type} : List (Effect ε) → List String
  | [] => []
  | Effect.qWarning msg :: es => msg :: warnings es
  | Effect.startProcess _ _ :: es => warnings es
  | Effect.killProcess _ _ :: es => warnings es

/-- The argument of the last `setSessionId` call of a sequence, if there is one. -/
def lastSessionId : List Mutator → Option quint32
  | [] => none
  | m :: ms =>
    match lastSessionId ms with
    | some v => some v
    | none =>
      match m with
      | Mutator.setSessionId v => some v
      | _ => none

/-- The argument of the last `setAccount` call of a sequence, if there is one. -/
def lastAccount : List Mutator → Option Account
  | [] => none
  | m :: ms =>
    match lastAccount ms with
    | some v => some v
    | none =>
      match m with
      | Mutator.setAccount v => some v
      | _ => none

/-- The argument of the last `setProgram` call of a sequence, if there is one. -/
def lastProgram : List Mutator → Option String
  | [] => none
  | m :: ms =>
    match lastProgram ms with
    | some v => some v
    | none =>
      match m with
      | Mutator.setProgram v => some v
      | _ => none

/-- The argument of the last `setArguments` call of a sequence, if there is one. -/
def lastArguments : List Mutator → Option (List String)
  | [] => none
  | m :: ms =>
    match lastArguments ms with
    | some v => some v
    | none =>
      match m with
      | Mutator.setArguments v => some v
      | _ => none

/-! ## The implementation object, from the specification -/

/-- Modelled from the spec: what `HostProcessImpl::startProcess` and
`HostProcessImpl::killProcess` (host/win/host_process_impl.cc, not among the
sources) can do, in the words of sections 4.4 and 5 of the specification: raise
the locked-state signal, print a warning, report a state change to the
observers, hand the launch (4.2 followed by 4.3) with the configuration in
force to the background context, request the termination of the held process
handle, release the process handle, release the security context. -/
inductive ImplEffect
  | lockedSignal
  | warning
  | stateChanged (state : ProcessState)
  | launch (session_id : quint32) (account : Account) (program : String)
      (arguments : List String)
  | requestTermination
  | releaseProcessHandle
  | releaseSecurityContext
  deriving DecidableEq, Repr

/-- Whether an implementation effect starts a launch. -/
def ImplEffect.isLaunch : ImplEffect → Bool
  | ImplEffect.launch _ _ _ _ => true
  | _ => false

/-- Whether an implementation effect terminates the process or releases one of
the two resources of a launch. -/
def ImplEffect.touchesResources : ImplEffect → Bool
  | ImplEffect.requestTermination => true
  | ImplEffect.releaseProcessHandle => true
  | ImplEffect.releaseSecurityContext => true
  | _ => false

/-- Modelled from the spec: `HostProcessImpl::startProcess`, whose body
(host/win/host_process_impl.cc) is not among the sources. Section 4.4: start is
a no-op with a locked-state signal if the state is not NotRunning; otherwise it
transitions to Starting and the launch work is dispatched with the current
configuration (section 5: the caller is not blocked, the outcome arrives
later). -/
def specStartProcess (impl : HostProcessImpl) : HostProcessImpl × List ImplEffect :=
  if impl.state_ ≠ ProcessState.NotRunning then
    (impl, [ImplEffect.lockedSignal])
  else
    ({ impl with state_ := ProcessState.Starting },
      [ImplEffect.stateChanged ProcessState.Starting,
       ImplEffect.launch impl.session_id_ impl.account_ impl.program_ impl.arguments_])

/-- Modelled from the spec: `HostProcessImpl::killProcess`, whose body
(host/win/host_process_impl.cc) is not among the sources. Section 4.4: kill is
valid in Running only and is a no-op with a warning otherwise; in Running it
requests the termination of the held process handle, and the transition to
Killed happens only later, once the operating system confirms. -/
def specKillProcess (impl : HostProcessImpl) : HostProcessImpl × List ImplEffect :=
  if impl.state_ ≠ ProcessState.Running then
    (impl, [ImplEffect.warning])
  else
    (impl, [ImplEffect.requestTermination])

/-- Modelled from the spec: the implementation object of the specification,
`specStartProcess` and `specKillProcess` together. -/
def specImpl : HostProcessImplOps ImplEffect where
  startProcess := specStartProcess
  killProcess := specKillProcess

/-! ## `ScopedComPtr` (base/scoped_comptr.h) -/

/-- The type `Interface*`: an address, `0` being the null pointer. -/
abbrev Ptr := Nat

/-- The null pointer. -/
def nullptr : Ptr := 0

/-- The class `ScopedComPtr<Interface>`: its only data member is `ptr_`,
inherited from `scoped_refptr<Interface>` (the destructor asserts that the
object is as large as one pointer). -/
structure ScopedComPtr where
  ptr_ : Ptr
  deriving DecidableEq, Repr

/-- A call of one of the two reference-counting methods of `IUnknown` on the
object at address `obj`. -/
inductive ComCall
  | AddRef (obj : Ptr)
  | Release (obj : Ptr)
  deriving DecidableEq, Repr

/-- The number of `Release` calls made on the object at `obj`. -/
def releaseCalls (obj : Ptr) : List ComCall → Nat
  | [] => 0
  | ComCall.Release q :: cs => (if q = obj then 1 else 0) + releaseCalls obj cs
  | ComCall.AddRef _ :: cs => releaseCalls obj cs

/-- The number of `AddRef` calls made on the object at `obj`. -/
def addRefCalls (obj : Ptr) : List ComCall → Nat
  | [] => 0
  | ComCall.AddRef q :: cs => (if q = obj then 1 else 0) + addRefCalls obj cs
  | ComCall.Release _ :: cs => addRefCalls obj cs

/-- The reference count of the object at `obj` after the calls `cs`, when it
was `before` before them: every `AddRef` adds one and every `Release` takes one
away. -/
def refCountAfter (before : Int) (obj : Ptr) (cs : List ComCall) : Int :=
  before + (addRefCalls obj cs : Int) - (releaseCalls obj cs : Int)

/-- `void ScopedComPtr::Release()`. -/
def ScopedComPtr.Release (self : ScopedComPtr) : ScopedComPtr × List ComCall :=
  if self.ptr_ ≠ nullptr then
    ({ self with ptr_ := nullptr }, [ComCall.Release self.ptr_])
  else
    (self, [])

/-- `Interface* ScopedComPtr::Detach()`: the returned pointer, the wrapper after
the call, and the calls made on the object. -/
def ScopedComPtr.Detach (self : ScopedComPtr) : Ptr × ScopedComPtr × List ComCall :=
  let p := self.ptr_
  (p, { self with ptr_ := nullptr }, [])

/-- `void ScopedComPtr::Attach(Interface* p)`. `DCHECK` comes from
base/logging.h, which is not among the sources; `dcheck_is_on` says whether the
build checks it. A failed `DCHECK` ends the program: `none`. -/
def ScopedComPtr.Attach (dcheck_is_on : Bool) (p : Ptr) (self : ScopedComPtr) :
    Option (ScopedComPtr × List ComCall) :=
  if dcheck_is_on && decide (self.ptr_ ≠ nullptr) then
    none
  else
    some ({ self with ptr_ := p }, [])


/-! ## Sample objects -/

/-- A controller in state NotRunning. -/
def idleProcess : HostProcess :=
  { impl_ :=
      { state_ := ProcessState.NotRunning
        session_id_ := 0
        account_ := Account.PrivilegedSystem
        program_ := ""
        arguments_ := [] } }

/-- A controller in state Running, launched as helper.exe in session 1. -/
def runningProcess : HostProcess :=
  { impl_ :=
      { state_ := ProcessState.Running
        session_id_ := 1
        account_ := Account.CurrentUser
        program_ := "helper.exe"
        arguments_ := ["--mode=agent"] } }

/-- A controller in state Starting. -/
def startingProcess : HostProcess :=
  { impl_ := { runningProcess.impl_ with state_ := ProcessState.Starting } }

/-! ## Helper lemmas -/

theorem Mutator.call_state {ε : Type} (m : Mutator) (self : HostProcess) :
    (Mutator.call m self : Outcome ε).1.state = self.state := by
  cases m <;>
    simp only [Mutator.call, HostProcess.setSessionId, HostProcess.setAccount,
      HostProcess.setProgram, HostProcess.setArguments, HostProcess.state] <;>
    split <;> rfl

theorem Mutator.call_sessionId {ε : Type} (m : Mutator) (self : HostProcess)
    (h : self.state = ProcessState.NotRunning) :
    (Mutator.call m self : Outcome ε).1.sessionId =
      match m with
      | Mutator.setSessionId v => v
      | _ => self.sessionId := by
  have h1 : self.impl_.state_ = ProcessState.NotRunning := h
  cases m <;>
    simp [Mutator.call, HostProcess.setSessionId, HostProcess.setAccount,
      HostProcess.setProgram, HostProcess.setArguments, HostProcess.sessionId, h1]

theorem Mutator.call_account {ε : Type} (m : Mutator) (self : HostProcess)
    (h : self.state = ProcessState.NotRunning) :
    (Mutator.call m self : Outcome ε).1.account =
      match m with
      | Mutator.setAccount v => v
      | _ => self.account := by
  have h1 : self.impl_.state_ = ProcessState.NotRunning := h
  cases m <;>
    simp [Mutator.call, HostProcess.setSessionId, HostProcess.setAccount,
      HostProcess.setProgram, HostProcess.setArguments, HostProcess.account, h1]

theorem Mutator.call_program {ε : Type} (m : Mutator) (self : HostProcess)
    (h : self.state = ProcessState.NotRunning) :
    (Mutator.call m self : Outcome ε).1.program =
      match m with
      | Mutator.setProgram v => v
      | _ => self.program := by
  have h1 : self.impl_.state_ = ProcessState.NotRunning := h
  cases m <;>
    simp [Mutator.call, HostProcess.setSessionId, HostProcess.setAccount,
      HostProcess.setProgram, HostProcess.setArguments, HostProcess.program, h1]

theorem Mutator.call_arguments {ε : Type} (m : Mutator) (self : HostProcess)
    (h : self.state = ProcessState.NotRunning) :
    (Mutator.call m self : Outcome ε).1.arguments =
      match m with
      | Mutator.setArguments v => v
      | _ => self.arguments := by
  have h1 : self.impl_.state_ = ProcessState.NotRunning := h
  cases m <;>
    simp [Mutator.call, HostProcess.setSessionId, HostProcess.setAccount,
      HostProcess.setProgram, HostProcess.setArguments, HostProcess.arguments, h1]

theorem runCalls_cons {ε : Type} (m : Mutator) (ms : List Mutator) (self : HostProcess) :
    (runCalls (m :: ms) self : Outcome ε).1 =
      (runCalls ms (Mutator.call m self : Outcome ε).1 : Outcome ε).1 := rfl

/-! ## Configuration mutators -/

/-- C1: while the state is not NotRunning, each of setSessionId, setAccount,
setProgram and setArguments, called with any argument, returns the controller
it was called on: the four configuration fields and the state are unchanged. -/
theorem mutators_leave_busy_controller_unchanged {ε : Type} (self : HostProcess)
    (h : self.state ≠ ProcessState.NotRunning) :
    (∀ v : quint32, (HostProcess.setSessionId v self : Outcome ε).1 = self) ∧
    (∀ v : Account, (HostProcess.setAccount v self : Outcome ε).1 = self) ∧
    (∀ v : String, (HostProcess.setProgram v self : Outcome ε).1 = self) ∧
    (∀ v : List String, (HostProcess.setArguments v self : Outcome ε).1 = self) := by
  have h1 : self.impl_.state_ ≠ ProcessState.NotRunning := h
  refine ⟨?_, ?_, ?_, ?_⟩ <;> intro v
  · simp [HostProcess.setSessionId, h1]
  · simp [HostProcess.setAccount, h1]
  · simp [HostProcess.setProgram, h1]
  · simp [HostProcess.setArguments, h1]

/-- C1, at a concrete input: the four mutators on a controller in state
Running. -/
theorem mutators_leave_busy_controller_unchanged_witness :
    runningProcess.state ≠ ProcessState.NotRunning ∧
    (HostProcess.setSessionId 7 runningProcess : Outcome ImplEffect).1 = runningProcess ∧
    (HostProcess.setAccount Account.PrivilegedSystem runningProcess :
      Outcome ImplEffect).1 = runningProcess ∧
    (HostProcess.setProgram "other.exe" runningProcess : Outcome ImplEffect).1 =
      runningProcess ∧
    (HostProcess.setArguments ["-x"] runningProcess : Outcome ImplEffect).1 =
      runningProcess :=
  have t := @mutators_leave_busy_controller_unchanged ImplEffect runningProcess
    (by decide)
  ⟨by decide, t.1 7, t.2.1 Account.PrivilegedSystem, t.2.2.1 "other.exe", t.2.2.2 ["-x"]⟩

/-- C2: after any finite sequence of setSessionId, setAccount, setProgram and
setArguments calls on a controller in state NotRunning, the state is still
NotRunning and each accessor returns the argument of the last call of the
sequence that set its field, or the value the field had before the sequence
when no call set it. -/
theorem mutators_last_write_wins {ε : Type} (ms : List Mutator) (self : HostProcess)
    (h : self.state = ProcessState.NotRunning) :
    (runCalls ms self : Outcome ε).1.state = ProcessState.NotRunning ∧
    (runCalls ms self : Outcome ε).1.sessionId = (lastSessionId ms).getD self.sessionId ∧
    (runCalls ms self : Outcome ε).1.account = (lastAccount ms).getD self.account ∧
    (runCalls ms self : Outcome ε).1.program = (lastProgram ms).getD self.program ∧
    (runCalls ms self : Outcome ε).1.arguments =
      (lastArguments ms).getD self.arguments := by
  induction ms generalizing self with
  | nil => exact ⟨h, rfl, rfl, rfl, rfl⟩
  | cons m ms ih =>
    have hs : (Mutator.call m self : Outcome ε).1.state = ProcessState.NotRunning := by
      rw [Mutator.call_state]; exact h
    obtain ⟨i0, i1, i2, i3, i4⟩ := ih (Mutator.call m self : Outcome ε).1 hs
    simp only [runCalls_cons]
    refine ⟨i0, ?_, ?_, ?_, ?_⟩
    · rw [i1, Mutator.call_sessionId m self h]
      simp only [lastSessionId]
      cases lastSessionId ms <;> cases m <;> rfl
    · rw [i2, Mutator.call_account m self h]
      simp only [lastAccount]
      cases lastAccount ms <;> cases m <;> rfl
    · rw [i3, Mutator.call_program m self h]
      simp only [lastProgram]
      cases lastProgram ms <;> cases m <;> rfl
    · rw [i4, Mutator.call_arguments m self h]
      simp only [lastArguments]
      cases lastArguments ms <;> cases m <;> rfl

/-- C2, at a concrete input: six calls on a controller in state NotRunning, of
which none sets the account. -/
theorem mutators_last_write_wins_witness :
    idleProcess.state = ProcessState.NotRunning ∧
    (runCalls [Mutator.setProgram "a.exe", Mutator.setSessionId 3,
        Mutator.setArguments ["-v"], Mutator.setProgram "b.exe",
        Mutator.setSessionId 5, Mutator.setArguments []] idleProcess :
      Outcome ImplEffect).1 =
      { impl_ :=
          { state_ := ProcessState.NotRunning
            session_id_ := 5
            account_ := Account.PrivilegedSystem
            program_ := "b.exe"
            arguments_ := [] } } := by
  have t := @mutators_last_write_wins ImplEffect
    [Mutator.setProgram "a.exe", Mutator.setSessionId 3,
      Mutator.setArguments ["-v"], Mutator.setProgram "b.exe",
      Mutator.setSessionId 5, Mutator.setArguments []] idleProcess rfl
  refine ⟨rfl, ?_⟩
  generalize (runCalls _ idleProcess : Outcome ImplEffect).1 = after at t
  obtain ⟨⟨st, sid, acc, prog, args⟩⟩ := after
  obtain ⟨t0, t1, t2, t3, t4⟩ := t
  simp only [HostProcess.state, HostProcess.sessionId, HostProcess.account,
    HostProcess.program, HostProcess.arguments] at t0 t1 t2 t3 t4
  subst t0 t1 t2 t3 t4
  rfl

/-! ## The two `start` overloads and `kill` -/

/-- C3: while the state is not NotRunning, start(session_id, account, program,
arguments) returns the controller it was called on (the four configuration
fields and the state are unchanged), all it does is print one warning, and it
does not call startProcess, whatever startProcess is. -/
theorem start4_rejected_while_busy {ε : Type} (ops : HostProcessImplOps ε)
    (session_id : quint32) (account : Account) (program : String)
    (arguments : List String) (self : HostProcess)
    (h : self.state ≠ ProcessState.NotRunning) :
    (HostProcess.start4 ops session_id account program arguments self).1 = self ∧
    (HostProcess.start4 ops session_id account program arguments self).2 =
      [Effect.qWarning "HostProcess::start: Process is already running"] ∧
    ∀ e ∈ (HostProcess.start4 ops session_id account program arguments self).2,
      e.isStartProcess = false := by
  have h1 : self.impl_.state_ ≠ ProcessState.NotRunning := h
  simp [HostProcess.start4, h1, Effect.isStartProcess]

/-- C3, at a concrete input: a second start on a controller in state Starting,
with the implementation object of the specification. -/
theorem start4_rejected_while_busy_witness :
    startingProcess.state ≠ ProcessState.NotRunning ∧
    HostProcess.start4 specImpl 2 Account.PrivilegedSystem "other.exe" ["-x"]
      startingProcess =
      (startingProcess,
        [Effect.qWarning "HostProcess::start: Process is already running"]) :=
  have t := start4_rejected_while_busy specImpl 2 Account.PrivilegedSystem "other.exe"
    ["-x"] startingProcess (by decide)
  ⟨by decide, Prod.ext t.1 t.2.1⟩

/-- C4: with startProcess as the specification describes it, start() on a
controller whose state is not NotRunning returns the controller it was called
on (state and configuration fields unchanged); the call of startProcess raises
the locked-state signal and does nothing else, in particular it starts no
launch. -/
theorem start_noop_while_busy (self : HostProcess)
    (h : self.state ≠ ProcessState.NotRunning) :
    (HostProcess.start specImpl self).1 = self ∧
    (HostProcess.start specImpl self).2 =
      [Effect.startProcess self.impl_ [ImplEffect.lockedSignal]] ∧
    ∀ x ∈ (specImpl.startProcess self.impl_).2, x.isLaunch = false := by
  have h1 : self.impl_.state_ ≠ ProcessState.NotRunning := h
  simp [HostProcess.start, specImpl, specStartProcess, h1, ImplEffect.isLaunch]

/-- C4, at a concrete input: start() on a controller in state Running. -/
theorem start_noop_while_busy_witness :
    runningProcess.state ≠ ProcessState.NotRunning ∧
    HostProcess.start specImpl runningProcess =
      (runningProcess,
        [Effect.startProcess runningProcess.impl_ [ImplEffect.lockedSignal]]) :=
  have t := start_noop_while_busy runningProcess (by decide)
  ⟨by decide, Prod.ext t.1 t.2.1⟩

/-- C5: on a controller in state NotRunning, start(session_id, account,
program, arguments) gives the same controller and the same effects as
setSessionId(session_id); setAccount(account); setProgram(program);
setArguments(arguments); start(), whatever startProcess is; its only effect is
one call of startProcess, which receives an implementation object in state
NotRunning holding exactly the four values passed. -/
theorem start4_eq_setters_then_start {ε : Type} (ops : HostProcessImplOps ε)
    (session_id : quint32) (account : Account) (program : String)
    (arguments : List String) (self : HostProcess)
    (h : self.state = ProcessState.NotRunning) :
    HostProcess.start4 ops session_id account program arguments self =
      runAll [HostProcess.setSessionId session_id, HostProcess.setAccount account,
        HostProcess.setProgram program, HostProcess.setArguments arguments,
        HostProcess.start ops] self ∧
    (HostProcess.start4 ops session_id account program arguments self).2 =
      [Effect.startProcess
        { state_ := ProcessState.NotRunning
          session_id_ := session_id
          account_ := account
          program_ := program
          arguments_ := arguments }
        (ops.startProcess
          { state_ := ProcessState.NotRunning
            session_id_ := session_id
            account_ := account
            program_ := program
            arguments_ := arguments }).2] := by
  have h1 : self.impl_.state_ = ProcessState.NotRunning := h
  simp [HostProcess.start4, runAll, andThen, HostProcess.setSessionId,
    HostProcess.setAccount, HostProcess.setProgram, HostProcess.setArguments,
    HostProcess.start, h1]

/-- C5, at a concrete input: the overload on a controller in state NotRunning,
with the implementation object of the specification; the launch it dispatches
carries the four values passed. -/
theorem start4_eq_setters_then_start_witness :
    idleProcess.state = ProcessState.NotRunning ∧
    HostProcess.start4 specImpl 1 Account.CurrentUser "helper.exe" ["--mode=agent"]
        idleProcess =
      runAll [HostProcess.setSessionId 1, HostProcess.setAccount Account.CurrentUser,
        HostProcess.setProgram "helper.exe", HostProcess.setArguments ["--mode=agent"],
        HostProcess.start specImpl] idleProcess ∧
    HostProcess.start4 specImpl 1 Account.CurrentUser "helper.exe" ["--mode=agent"]
        idleProcess =
      (startingProcess,
        [Effect.startProcess
          { runningProcess.impl_ with state_ := ProcessState.NotRunning }
          [ImplEffect.stateChanged ProcessState.Starting,
           ImplEffect.launch 1 Account.CurrentUser "helper.exe" ["--mode=agent"]]]) :=
  ⟨rfl,
    (start4_eq_setters_then_start specImpl 1 Account.CurrentUser "helper.exe"
      ["--mode=agent"] idleProcess rfl).1,
    rfl⟩


/-- C6: each of the four mutators, and start(session_id, account, program,
arguments), prints its "Process is already running" warning if and only if the
state is not NotRunning, and prints no warning at all when the state is
NotRunning, whatever startProcess is. -/
theorem rejection_reported_iff_busy {ε : Type} (ops : HostProcessImplOps ε)
    (self : HostProcess) :
    (∀ v : quint32,
      ("HostProcess::setSessionId: Process is already running" ∈
          warnings (HostProcess.setSessionId v self : Outcome ε).2 ↔
        self.state ≠ ProcessState.NotRunning) ∧
      (self.state = ProcessState.NotRunning →
        warnings (HostProcess.setSessionId v self : Outcome ε).2 = [])) ∧
    (∀ v : Account,
      ("HostProcess::setAccount: Process is already running" ∈
          warnings (HostProcess.setAccount v self : Outcome ε).2 ↔
        self.state ≠ ProcessState.NotRunning) ∧
      (self.state = ProcessState.NotRunning →
        warnings (HostProcess.setAccount v self : Outcome ε).2 = [])) ∧
    (∀ v : String,
      ("HostProcess::setProgram: Process is already running" ∈
          warnings (HostProcess.setProgram v self : Outcome ε).2 ↔
        self.state ≠ ProcessState.NotRunning) ∧
      (self.state = ProcessState.NotRunning →
        warnings (HostProcess.setProgram v self : Outcome ε).2 = [])) ∧
    (∀ v : List String,
      ("HostProcess::setArguments: Process is already running" ∈
          warnings (HostProcess.setArguments v self : Outcome ε).2 ↔
        self.state ≠ ProcessState.NotRunning) ∧
      (self.state = ProcessState.NotRunning →
        warnings (HostProcess.setArguments v self : Outcome ε).2 = [])) ∧
    (∀ (session_id : quint32) (account : Account) (program : String)
        (arguments : List String),
      ("HostProcess::start: Process is already running" ∈
          warnings (HostProcess.start4 ops session_id account program arguments self).2 ↔
        self.state ≠ ProcessState.NotRunning) ∧
      (self.state = ProcessState.NotRunning →
        warnings (HostProcess.start4 ops session_id account program arguments self).2 =
          [])) := by
  by_cases h : self.impl_.state_ = ProcessState.NotRunning <;>
    simp [HostProcess.setSessionId, HostProcess.setAccount, HostProcess.setProgram,
      HostProcess.setArguments, HostProcess.start4, HostProcess.start,
      HostProcess.state, warnings, h]

/-- C6, at concrete inputs: setProgram and the start overload print their
warning on a controller in state Running and print nothing on a controller in
state NotRunning. -/
theorem rejection_reported_iff_busy_witness :
    warnings (HostProcess.setProgram "other.exe" runningProcess : Outcome ImplEffect).2 =
      ["HostProcess::setProgram: Process is already running"] ∧
    warnings (HostProcess.start4 specImpl 2 Account.CurrentUser "other.exe" []
      runningProcess).2 = ["HostProcess::start: Process is already running"] ∧
    warnings (HostProcess.setProgram "other.exe" idleProcess : Outcome ImplEffect).2 = [] ∧
    warnings (HostProcess.start4 specImpl 2 Account.CurrentUser "other.exe" []
      idleProcess).2 = [] :=
  ⟨rfl, rfl,
    ((rejection_reported_iff_busy specImpl idleProcess).2.2.1 "other.exe").2 rfl,
    ((rejection_reported_iff_busy specImpl idleProcess).2.2.2.2 2 Account.CurrentUser
      "other.exe" []).2 rfl⟩

/-- C7: with killProcess as the specification describes it, kill() on a
controller whose state is not Running returns the controller it was called on
(state and configuration fields unchanged); the call of killProcess prints a
warning and does nothing else: it neither requests a termination nor releases
the process handle or the security context. -/
theorem kill_noop_unless_running (self : HostProcess)
    (h : self.state ≠ ProcessState.Running) :
    (HostProcess.kill specImpl self).1 = self ∧
    (HostProcess.kill specImpl self).2 =
      [Effect.killProcess self.impl_ [ImplEffect.warning]] ∧
    ∀ x ∈ (specImpl.killProcess self.impl_).2, x.touchesResources = false := by
  have h1 : self.impl_.state_ ≠ ProcessState.Running := h
  simp [HostProcess.kill, specImpl, specKillProcess, h1, ImplEffect.touchesResources]

/-- C7, at a concrete input: kill() on a controller in state NotRunning. -/
theorem kill_noop_unless_running_witness :
    idleProcess.state ≠ ProcessState.Running ∧
    HostProcess.kill specImpl idleProcess =
      (idleProcess, [Effect.killProcess idleProcess.impl_ [ImplEffect.warning]]) :=
  have t := kill_noop_unless_running idleProcess (by decide)
  ⟨by decide, Prod.ext t.1 t.2.1⟩

/-! ## `ScopedComPtr` -/

/-- C8: Release() on a wrapper holding a non-null pointer calls Release on the
held object exactly once, makes no other call, and leaves the wrapper holding
the null pointer; on a wrapper holding the null pointer it calls nothing and
leaves the wrapper as it is. Calling Release() twice in a row gives the same
wrapper and the same calls as calling it once. -/
theorem Release_once_then_idempotent (self : ScopedComPtr) :
    (self.ptr_ ≠ nullptr →
      self.Release = ({ ptr_ := nullptr }, [ComCall.Release self.ptr_]) ∧
      releaseCalls self.ptr_ self.Release.2 = 1) ∧
    (self.ptr_ = nullptr → self.Release = (self, [])) ∧
    self.Release.1.ptr_ = nullptr ∧
    (self.Release.1.Release.1, self.Release.2 ++ self.Release.1.Release.2) =
      self.Release := by
  obtain ⟨p⟩ := self
  by_cases h : p = nullptr <;>
    simp [ScopedComPtr.Release, releaseCalls, h]

/-- C8, at a concrete input: a wrapper holding the object at address 64. -/
theorem Release_once_then_idempotent_witness :
    ScopedComPtr.Release { ptr_ := 64 } = ({ ptr_ := nullptr }, [ComCall.Release 64]) ∧
    releaseCalls 64 (ScopedComPtr.Release { ptr_ := 64 }).2 = 1 ∧
    ScopedComPtr.Release (ScopedComPtr.Release { ptr_ := 64 }).1 =
      ({ ptr_ := nullptr }, []) :=
  have t := (Release_once_then_idempotent { ptr_ := 64 }).1 (by decide)
  ⟨t.1, t.2, rfl⟩

/-- C9: Detach() returns the pointer the wrapper held before the call (the null
pointer included), leaves the wrapper holding the null pointer, and calls
neither AddRef nor Release, so the reference count of every object is what it
was. -/
theorem Detach_returns_held_pointer (self : ScopedComPtr) :
    self.Detach.1 = self.ptr_ ∧
    self.Detach.2.1.ptr_ = nullptr ∧
    self.Detach.2.2 = [] ∧
    ∀ (before : Int) (obj : Ptr), refCountAfter before obj self.Detach.2.2 = before := by
  simp [ScopedComPtr.Detach, refCountAfter, addRefCalls, releaseCalls]

/-- C10: on a wrapper holding the null pointer, Attach(p) succeeds in every
build, and the Detach() that follows returns p, leaves the wrapper holding the
null pointer again and, like Attach, calls neither AddRef nor Release; and on
any wrapper, Detach() followed by Attach of the returned pointer succeeds and
gives back the wrapper as it was, again without a call. -/
theorem Attach_Detach_inverse (dcheck_is_on : Bool) (self : ScopedComPtr) (p : Ptr) :
    (self.ptr_ = nullptr →
      ∃ attached : ScopedComPtr,
        self.Attach dcheck_is_on p = some (attached, []) ∧
        attached.Detach = (p, { ptr_ := nullptr }, [])) ∧
    self.Detach.2.1.Attach dcheck_is_on self.Detach.1 = some (self, []) ∧
    self.Detach.2.2 = [] := by
  obtain ⟨q⟩ := self
  refine ⟨?_, ?_, rfl⟩
  · intro h
    have hq : q = nullptr := h
    subst hq
    exact ⟨{ ptr_ := p }, by simp [ScopedComPtr.Attach], rfl⟩
  · simp [ScopedComPtr.Attach, ScopedComPtr.Detach]

/-- C10, at concrete inputs: an empty wrapper and the object at address 64, and
a wrapper holding that object, in a build that checks `DCHECK`. -/
theorem Attach_Detach_inverse_witness :
    (∃ attached : ScopedComPtr,
      ScopedComPtr.Attach true 64 { ptr_ := nullptr } = some (attached, []) ∧
      attached.Detach = (64, { ptr_ := nullptr }, [])) ∧
    ScopedComPtr.Attach true (ScopedComPtr.Detach { ptr_ := 64 }).1
      (ScopedComPtr.Detach { ptr_ := 64 }).2.1 = some ({ ptr_ := 64 }, []) :=
  ⟨(Attach_Detach_inverse true { ptr_ := nullptr } 64).1 rfl,
    (Attach_Detach_inverse true { ptr_ := 64 } 0).2.1⟩

end aspia
